import Mathlib

/-
Verification of the package-upgrade risk report pipeline (src/main.py).

The program is a linear pipeline: read the GOOGLE_API_KEY credential from the
environment, run the external checkupdates command to list upgradable
packages, query an AI completion service once per package, parse each
response, and print one JSON report to standard output.

The shallow embedding below models each external touchpoint (environment,
subprocess, network service, json.loads) as an explicit input supplied to the
pure Lean functions, and models every print call in the source as an entry in
an explicit output trace tagged with the stream the source actually targets
(Python print with no file argument writes to sys.stdout).
-/

set_option maxRecDepth 8192

namespace Iaawb

/-- JSON values as produced by Python json.loads: null, booleans, numbers
(modelled as integers; no claim involves floats), strings, arrays, and
objects.  An object field list stands for an already-constructed Python dict,
so its keys are distinct. -/
inductive Jval where
  | null : Jval
  | bool (b : Bool) : Jval
  | num (n : Int) : Jval
  | str (s : String) : Jval
  | arr (elems : List Jval) : Jval
  | obj (fields : List (String × Jval)) : Jval

/-- Hexadecimal digits of a number, lowercase, as Python uses in \uXXXX
escapes. -/
def hexDigits (n : Nat) : List Char := Nat.toDigits 16 n

/-- Four-digit zero-padded lowercase hexadecimal, as in a JSON \uXXXX
escape. -/
def hex4 (n : Nat) : String :=
  String.mk (List.replicate (4 - (hexDigits n).length) '0' ++ hexDigits n)

/-- Escape one character the way Python json.dumps (default ensure_ascii)
does: quote, backslash and control characters get two-character escapes or
\uXXXX forms, printable ASCII passes through, and everything above 0x7e is
\uXXXX-escaped (with a surrogate pair beyond 0xffff). -/
def escapeChar (c : Char) : String :=
  if c = '"' then "\\\""
  else if c = '\\' then "\\\\"
  else if c = '\n' then "\\n"
  else if c = '\r' then "\\r"
  else if c = '\t' then "\\t"
  else if c = '\x08' then "\\b"
  else if c = '\x0c' then "\\f"
  else if c.toNat < 0x20 then "\\u" ++ hex4 c.toNat
  else if c.toNat < 0x7f then String.mk [c]
  else if c.toNat < 0x10000 then "\\u" ++ hex4 c.toNat
  else
    "\\u" ++ hex4 (0xd800 + (c.toNat - 0x10000) / 0x400) ++
      "\\u" ++ hex4 (0xdc00 + (c.toNat - 0x10000) % 0x400)

/-- Render a string as a JSON string literal, Python json.dumps style. -/
def qstr (s : String) : String :=
  "\"" ++ String.join (s.data.map escapeChar) ++ "\""

mutual

/-- Compact JSON rendering with Python json.dumps default separators
(comma-space between items, colon-space after keys). -/
def dumpsCompact : Jval → String
  | Jval.null => "null"
  | Jval.bool true => "true"
  | Jval.bool false => "false"
  | Jval.num n => toString n
  | Jval.str s => qstr s
  | Jval.arr xs => "[" ++ String.intercalate ", " (dumpsCompactArr xs) ++ "]"
  | Jval.obj fields =>
      "\x7b" ++ String.intercalate ", " (dumpsCompactObj fields) ++ "\x7d"

/-- Compact renderings of the elements of a JSON array. -/
def dumpsCompactArr : List Jval → List String
  | [] => []
  | x :: xs => dumpsCompact x :: dumpsCompactArr xs

/-- Compact renderings of the key-value entries of a JSON object. -/
def dumpsCompactObj : List (String × Jval) → List String
  | [] => []
  | (k, v) :: fs => (qstr k ++ ": " ++ dumpsCompact v) :: dumpsCompactObj fs

end

/-- Spaces of a 4-space indent at the given nesting level, as produced by
json.dumps(..., indent=4). -/
def pad (lvl : Nat) : String := String.mk (List.replicate (4 * lvl) ' ')

mutual

/-- Indented JSON rendering matching Python json.dumps(v, indent=4) at a
given nesting level: item separator is a comma followed by a newline, key
separator is colon-space, empty containers render inline. -/
def dumpsInd : Nat → Jval → String
  | _, Jval.null => "null"
  | _, Jval.bool true => "true"
  | _, Jval.bool false => "false"
  | _, Jval.num n => toString n
  | _, Jval.str s => qstr s
  | _, Jval.arr [] => "[]"
  | lvl, Jval.arr (x :: xs) =>
      "[\n" ++ String.intercalate ",\n" (dumpsIndArr (lvl + 1) (x :: xs)) ++
        "\n" ++ pad lvl ++ "]"
  | _, Jval.obj [] => "\x7b\x7d"
  | lvl, Jval.obj (f :: fs) =>
      "\x7b\n" ++ String.intercalate ",\n" (dumpsIndObj (lvl + 1) (f :: fs)) ++
        "\n" ++ pad lvl ++ "\x7d"

/-- Indented renderings of array elements, each on its own indented line. -/
def dumpsIndArr : Nat → List Jval → List String
  | _, [] => []
  | lvl, x :: xs => (pad lvl ++ dumpsInd lvl x) :: dumpsIndArr lvl xs

/-- Indented renderings of object entries, each on its own indented line. -/
def dumpsIndObj : Nat → List (String × Jval) → List String
  | _, [] => []
  | lvl, (k, v) :: fs =>
      (pad lvl ++ qstr k ++ ": " ++ dumpsInd lvl v) :: dumpsIndObj lvl fs

end

/-- Python json.dumps(v, indent=4) at top level, as used by the two print
statements in main (src/main.py lines 115 and 118). -/
def dumpsIndent4 (v : Jval) : String := dumpsInd 0 v

/-- Python str.splitlines on a character list: every line break emits the
pending line (even when empty); at end of input the pending line is emitted
only when non-empty, so a trailing newline adds no empty final line. -/
def splitlinesAux : List Char → List Char → List String
  | [], acc => if acc.isEmpty then [] else [String.mk acc.reverse]
  | '\r' :: '\n' :: rest, acc => String.mk acc.reverse :: splitlinesAux rest []
  | '\r' :: rest, acc => String.mk acc.reverse :: splitlinesAux rest []
  | '\n' :: rest, acc => String.mk acc.reverse :: splitlinesAux rest []
  | c :: rest, acc => splitlinesAux rest (c :: acc)

/-- Python str.splitlines, as used on the captured stdout of checkupdates
(src/main.py line 41). -/
def py_splitlines (s : String) : List String := splitlinesAux s.data []

/-- Output stream of a print call.  Python print writes to sys.stdout unless
given an explicit file argument; each print site in src/main.py is embedded
with the stream it actually targets. -/
inductive OutStream where
  | stdout : OutStream
  | stderr : OutStream

/-- Message of the ValueError raised by get_api_key (src/main.py
lines 24-26). -/
def apiKeyErrorMsg : String :=
  "No GOOGLE_API_KEY environment variable found. Please set it in your .env file."

/-- Embedding of get_api_key (src/main.py lines 12-27).  The argument is the
value of os.environ.get("GOOGLE_API_KEY") after load_dotenv has populated the
process environment; none models an absent variable.  Python truthiness of
`if not api_key` rejects both None and the empty string.  An error value
models the raised ValueError. -/
def get_api_key (envKey : Option String) : Except String String :=
  match envKey with
  | none => Except.error apiKeyErrorMsg
  | some k => if k = "" then Except.error apiKeyErrorMsg else Except.ok k

/-- Outcome of the subprocess.run(["checkupdates"], ...) invocation
(src/main.py lines 38-40), supplied by the environment: normal completion
with captured stdout, a non-zero exit status (check=True then raises
subprocess.CalledProcessError), or an OS-level failure to run the command at
all (for example FileNotFoundError when checkupdates is absent from PATH),
which is not a CalledProcessError. -/
inductive SubprocessOutcome where
  | ok (stdout : String) : SubprocessOutcome
  | nonzeroExit (code : Nat) : SubprocessOutcome
  | oserror (msg : String) : SubprocessOutcome

/-- Python str() of the CalledProcessError raised for ["checkupdates"]
exiting with the given status. -/
def calledProcessErrorMsg (code : Nat) : String :=
  "Command \x27[\x27checkupdates\x27]\x27 returned non-zero exit status " ++
    toString code ++ "."

/-- Embedding of check_upgradable_packages (src/main.py lines 30-45).  The
first component is the returned package list, or an error for an exception
that propagates (only subprocess.CalledProcessError is caught).  The second
component is the trace of print calls the function performs; the print at
line 44 has no file argument, so it targets sys.stdout. -/
def check_upgradable_packages (outcome : SubprocessOutcome) :
    Except String (List String) × List (OutStream × String) :=
  match outcome with
  | SubprocessOutcome.ok out => (Except.ok (py_splitlines out), [])
  | SubprocessOutcome.nonzeroExit code =>
      (Except.ok [],
        [(OutStream.stdout,
          "Error checking for updates: " ++ calledProcessErrorMsg code)])
  | SubprocessOutcome.oserror msg => (Except.error msg, [])

/-- Synthetic fallback object json-dumped by search_for_bugs on a failing
service call (src/main.py line 77). -/
def searchErrObj (e : String) : Jval :=
  Jval.obj [("safe", Jval.bool false),
            ("reason", Jval.str ("Error during search: " ++ e))]

/-- Embedding of search_for_bugs (src/main.py lines 48-77).  The service
argument is the outcome of the model.generate_content call: ok carries the
response.text the service produced (arbitrary text), error carries str(e) of
the raised exception.  The genai.Client construction (lines 59-60) is plain
local object construction and is modelled as non-failing.  On success the
raw response text is returned unchanged; on failure the function returns
json.dumps of the synthetic fallback object. -/
def search_for_bugs (packageName apiKey : String)
    (service : Except String String) : String :=
  match service with
  | Except.ok text => text
  | Except.error e => dumpsCompact (searchErrObj e)

/-- Exception raised by a Python subscript data[key]: KeyError when a dict
lacks the key, TypeError when the value is not subscriptable by a string. -/
inductive PyExc where
  | keyError (key : String) : PyExc
  | typeError (msg : String) : PyExc

/-- Python subscript data[key] for a string key on a json.loads result:
dict lookup (KeyError when absent), TypeError on every other JSON type, with
the messages CPython produces. -/
def pySubscript (v : Jval) (key : String) : Except PyExc Jval :=
  match v with
  | Jval.obj fields =>
      match fields.find? (fun q => q.fst == key) with
      | some q => Except.ok q.snd
      | none => Except.error (PyExc.keyError key)
  | Jval.null =>
      Except.error (PyExc.typeError "\x27NoneType\x27 object is not subscriptable")
  | Jval.bool _ =>
      Except.error (PyExc.typeError "\x27bool\x27 object is not subscriptable")
  | Jval.num _ =>
      Except.error (PyExc.typeError "\x27int\x27 object is not subscriptable")
  | Jval.str _ =>
      Except.error
        (PyExc.typeError "string indices must be integers, not \x27str\x27")
  | Jval.arr _ =>
      Except.error
        (PyExc.typeError "list indices must be integers or slices, not str")

/-- Dictionary returned by is_safe_to_upgrade (src/main.py lines 92 and 95):
the values stored under its "safe" and "reason" keys.  The source copies
data["safe"] and data["reason"] through without validating their types, so
both fields are arbitrary JSON values. -/
structure SafeDict where
  safe : Jval
  reason : Jval

/-- Behaviour of json.loads on a raw response string: ok carries the parsed
value, error carries str() of the raised json.JSONDecodeError.  json.loads
is Python library code outside this repository, so it is an input of the
embedding. -/
abbrev LoadsOracle := String → Except String Jval

/-- Embedding of is_safe_to_upgrade (src/main.py lines 80-95).  The dict
literal evaluates data["safe"] then data["reason"]; json.JSONDecodeError and
KeyError are caught (the except clause at line 93) and produce the
fail-closed dict, while a TypeError from subscripting a non-dict JSON value
is not caught and propagates (the error case of the first component).
Python str(KeyError(k)) is the key wrapped in single quotes.  The second
component is the trace of print calls; the print at line 94 has no file
argument, so it targets sys.stdout. -/
def is_safe_to_upgrade (loads : LoadsOracle) (search_results : String) :
    Except String SafeDict × List (OutStream × String) :=
  match loads search_results with
  | Except.error m =>
      (Except.ok ⟨Jval.bool false, Jval.str ("Error parsing JSON: " ++ m)⟩,
        [(OutStream.stdout, "Error parsing JSON: " ++ m)])
  | Except.ok data =>
      match pySubscript data "safe" with
      | Except.error (PyExc.typeError m) => (Except.error m, [])
      | Except.error (PyExc.keyError k) =>
          (Except.ok
            ⟨Jval.bool false,
              Jval.str ("Error parsing JSON: \x27" ++ k ++ "\x27")⟩,
            [(OutStream.stdout, "Error parsing JSON: \x27" ++ k ++ "\x27")])
      | Except.ok s =>
          match pySubscript data "reason" with
          | Except.error (PyExc.typeError m) => (Except.error m, [])
          | Except.error (PyExc.keyError k) =>
              (Except.ok
                ⟨Jval.bool false,
                  Jval.str ("Error parsing JSON: \x27" ++ k ++ "\x27")⟩,
                [(OutStream.stdout, "Error parsing JSON: \x27" ++ k ++ "\x27")])
          | Except.ok r => (Except.ok ⟨s, r⟩, [])

/-- One record of the final report: either the per-package dict
literal built at src/main.py line 111 (insertion order: package, safe,
reason) or the placeholder dict of line 113. -/
inductive ReportRecord where
  | pkg (package : String) (safe : Jval) (reason : Jval) : ReportRecord
  | message (text : String) : ReportRecord

/-- JSON value of a report record, with key order matching the Python dict
insertion order. -/
def recordToJval : ReportRecord → Jval
  | ReportRecord.pkg p s r =>
      Jval.obj [("package", Jval.str p), ("safe", s), ("reason", r)]
  | ReportRecord.message m => Jval.obj [("message", Jval.str m)]

/-- Final JSON payload printed by main: the aggregated report (line 115) or
the error object built by the top-level except clause (line 118). -/
inductive Output where
  | report (records : List ReportRecord) : Output
  | fatalError (msg : String) : Output

/-- Rendering of the final payload, json.dumps(..., indent=4) in both
branches of main. -/
def renderOutput : Output → String
  | Output.report recs => dumpsIndent4 (Jval.arr (recs.map recordToJval))
  | Output.fatalError m => dumpsIndent4 (Jval.obj [("error", Jval.str m)])

/-- External side effect performed during a run: the checkupdates subprocess
invocation, or one generate_content network call for a package. -/
inductive Event where
  | subprocessCall : Event
  | networkCall (package : String) : Event

/-- External inputs of one run of the program: the credential environment
variable, the subprocess outcome, the per-package service behaviour of
model.generate_content, and the behaviour of json.loads on response
strings. -/
structure Oracles where
  envKey : Option String
  scanner : SubprocessOutcome
  service : String → Except String String
  loads : LoadsOracle

/-- Result of one iteration batch of the per-package loop of main
(src/main.py lines 108-111): the accumulated records or the first uncaught
exception, the print trace, and the network calls made. -/
structure StepResult where
  result : Except String (List ReportRecord)
  prints : List (OutStream × String)
  events : List Event

/-- The per-package loop of main (src/main.py lines 108-111): for each
package in order, call search_for_bugs (one network call), parse with
is_safe_to_upgrade, and append the record; an exception escaping
is_safe_to_upgrade aborts the loop and propagates. -/
def processPackages (apiKey : String) (service : String → Except String String)
    (loads : LoadsOracle) : List String → StepResult
  | [] => ⟨Except.ok [], [], []⟩
  | p :: rest =>
      let pr := is_safe_to_upgrade loads (search_for_bugs p apiKey (service p))
      match pr.fst with
      | Except.error m => ⟨Except.error m, pr.snd, [Event.networkCall p]⟩
      | Except.ok sd =>
          let r := processPackages apiKey service loads rest
          ⟨(match r.result with
            | Except.error m => Except.error m
            | Except.ok recs =>
                Except.ok (ReportRecord.pkg p sd.safe sd.reason :: recs)),
            pr.snd ++ r.prints, Event.networkCall p :: r.events⟩

/-- Result of one run of the program: the final JSON payload, the print
calls made before it (each tagged with its stream), and the external side
effects performed. -/
structure MainResult where
  output : Output
  prints : List (OutStream × String)
  events : List Event

/-- Embedding of main (src/main.py lines 98-118): get_api_key, then
check_upgradable_packages, then the per-package loop when the list is
non-empty (Python truthiness of a list is non-emptiness) or the placeholder
record otherwise; any exception reaching the top-level try is converted to
the error payload.  Diagnostics printed before the exception remain in the
trace. -/
def main (o : Oracles) : MainResult :=
  match get_api_key o.envKey with
  | Except.error m => ⟨Output.fatalError m, [], []⟩
  | Except.ok apiKey =>
      let scan := check_upgradable_packages o.scanner
      match scan.fst with
      | Except.error m => ⟨Output.fatalError m, scan.snd, [Event.subprocessCall]⟩
      | Except.ok pkgs =>
          if pkgs.isEmpty then
            ⟨Output.report [ReportRecord.message "No upgradable packages found."],
              scan.snd, [Event.subprocessCall]⟩
          else
            let step := processPackages apiKey o.service o.loads pkgs
            match step.result with
            | Except.error m =>
                ⟨Output.fatalError m, scan.snd ++ step.prints,
                  Event.subprocessCall :: step.events⟩
            | Except.ok recs =>
                ⟨Output.report recs, scan.snd ++ step.prints,
                  Event.subprocessCall :: step.events⟩

/-- Lines a run writes to standard output: every print of the run that
targets sys.stdout, followed by the final payload print (which also targets
sys.stdout). -/
def stdoutLines (r : MainResult) : List String :=
  (r.prints.filter (fun d =>
    match d.fst with
    | OutStream.stdout => true
    | OutStream.stderr => false)).map Prod.snd ++ [renderOutput r.output]

/-- Lines a run writes to standard error: every print of the run that
targets sys.stderr.  No print call in src/main.py passes file=sys.stderr. -/
def stderrLines (r : MainResult) : List String :=
  (r.prints.filter (fun d =>
    match d.fst with
    | OutStream.stdout => false
    | OutStream.stderr => true)).map Prod.snd

/-- Whether a JSON value is an object carrying the given key. -/
def objHasKey : Jval → String → Bool
  | Jval.obj fields, key => fields.any (fun q => q.fst == key)
  | _, _ => false

/-- A string is the JSON rendering of an object that carries both the "safe"
and the "reason" key.  This is the shape the Risk Assessor is specified to
return: such a string is in particular valid JSON with those keys. -/
def IsJsonShapedString (s : String) : Prop :=
  ∃ v : Jval, dumpsCompact v = s ∧
    objHasKey v "safe" = true ∧ objHasKey v "reason" = true

/-- Value stored under a key of a JSON object field list, if any. -/
def jlookup (fields : List (String × Jval)) (key : String) : Option Jval :=
  (fields.find? (fun q => q.fst == key)).map Prod.snd

/-- Appending to a non-empty string yields a non-empty string. -/
theorem append_left_ne_empty (s t : String) (h : s.length ≠ 0) : s ++ t ≠ "" := by
  intro he
  have hl := congrArg String.length he
  rw [String.length_append, show String.length "" = 0 from rfl] at hl
  omega

/-- The compact JSON rendering of an object always begins with an opening
brace. -/
theorem dumpsCompact_obj_head (fields : List (String × Jval)) :
    (dumpsCompact (Jval.obj fields)).data.head? = some '\x7b' := by
  cases fields with
  | nil => rfl
  | cons f fs =>
      show (("\x7b" ++ String.intercalate ", " (dumpsCompactObj (f :: fs)) ++
        "\x7d")).data.head? = some '\x7b'
      rw [String.data_append, String.data_append]
      rfl

/-- C1, counterexample.  The claim asserts search_for_bugs always returns a
string that is valid JSON with keys "safe" and "reason".  On a successful
generate_content call the source (src/main.py line 75) returns response.text
unchanged, so a service response of "@@@" is returned verbatim: it is not the
rendering of any JSON object, let alone one with those keys. -/
theorem search_for_bugs_not_always_json :
    search_for_bugs "vim" "key" (Except.ok "@@@") = "@@@" ∧
      ¬ IsJsonShapedString "@@@" := by
  refine ⟨rfl, ?_⟩
  rintro ⟨v, hd, hs, -⟩
  cases v with
  | obj fields =>
      have h1 := dumpsCompact_obj_head fields
      rw [hd] at h1
      exact absurd h1 (by decide)
  | null => simp [objHasKey] at hs
  | bool b => simp [objHasKey] at hs
  | num n => simp [objHasKey] at hs
  | str s => simp [objHasKey] at hs
  | arr xs => simp [objHasKey] at hs

/-- C1, amended.  search_for_bugs never raises past its boundary and, on any
failure of the generate_content call, returns json.dumps of the synthetic
object with "safe" false and a "reason" beginning "Error during search: ",
which is valid JSON with keys "safe" and "reason"; on a successful call it
returns the raw response text unchanged, with no guarantee that this text is
valid JSON. -/
theorem search_for_bugs_failure_shape (p k e text : String) :
    search_for_bugs p k (Except.error e) = dumpsCompact (searchErrObj e) ∧
      IsJsonShapedString (dumpsCompact (searchErrObj e)) ∧
      search_for_bugs p k (Except.ok text) = text :=
  ⟨rfl, ⟨searchErrObj e, rfl, rfl, rfl⟩, rfl⟩

/-- Behaviour of json.loads on the two concrete strings the counterexamples
feed it: "null" parses to JSON null, anything else fails to parse. -/
def loadsDemo : LoadsOracle := fun s =>
  if s = "null" then Except.ok Jval.null
  else Except.error "Expecting value: line 1 column 1 (char 0)"

/-- C2, counterexample.  The input "null" is valid JSON that lacks the keys
"safe" and "reason", so the claim asserts is_safe_to_upgrade does not raise
on it.  But subscripting the parsed None raises TypeError, which the except
clause at src/main.py line 93 (json.JSONDecodeError, KeyError) does not
catch, so the exception propagates. -/
theorem is_safe_to_upgrade_raises_on_null :
    (is_safe_to_upgrade loadsDemo "null").fst =
        Except.error "\x27NoneType\x27 object is not subscriptable" ∧
      ∀ d : SafeDict, (is_safe_to_upgrade loadsDemo "null").fst ≠ Except.ok d := by
  refine ⟨rfl, ?_⟩
  intro d h
  rw [show (is_safe_to_upgrade loadsDemo "null").fst =
      Except.error "\x27NoneType\x27 object is not subscriptable" from rfl] at h
  exact Except.noConfusion h

/-- C2, amended.  For every input whose json.loads fails, and for every input
that parses to a JSON object lacking the key "safe" or the key "reason",
is_safe_to_upgrade does not raise: it returns a dict with "safe" false and a
non-empty "reason" describing the parse error.  (Inputs parsing to valid
non-object JSON instead raise an uncaught TypeError.) -/
theorem is_safe_to_upgrade_fail_closed (loads : LoadsOracle) (s : String)
    (h : (∃ m, loads s = Except.error m) ∨
      (∃ fields, loads s = Except.ok (Jval.obj fields) ∧
        (jlookup fields "safe" = none ∨ jlookup fields "reason" = none))) :
    ∃ msg, (is_safe_to_upgrade loads s).fst =
        Except.ok ⟨Jval.bool false, Jval.str msg⟩ ∧ msg ≠ "" := by
  rcases h with ⟨m, hm⟩ | ⟨fields, hf, hk⟩
  · exact ⟨"Error parsing JSON: " ++ m,
      by simp [is_safe_to_upgrade, hm],
      append_left_ne_empty _ _ (by decide)⟩
  · cases hfind : fields.find? (fun q => q.fst == "safe") with
    | none =>
        exact ⟨"Error parsing JSON: \x27safe\x27",
          by simp [is_safe_to_upgrade, hf, pySubscript, hfind],
          by decide⟩
    | some q =>
        have hk2 : jlookup fields "reason" = none := by
          rcases hk with h1 | h2
          · rw [jlookup, hfind] at h1
            exact absurd h1 (by simp)
          · exact h2
        have hfind2 : fields.find? (fun q => q.fst == "reason") = none := by
          cases hf2 : fields.find? (fun q => q.fst == "reason") with
          | none => rfl
          | some q2 => rw [jlookup, hf2] at hk2; exact absurd hk2 (by simp)
        exact ⟨"Error parsing JSON: \x27reason\x27",
          by simp [is_safe_to_upgrade, hf, pySubscript, hfind, hfind2],
          by decide⟩

/-- C2, witness: a concrete unparsable input reaches the fail-closed
branch. -/
theorem is_safe_to_upgrade_fail_closed_witness :
    ∃ msg, (is_safe_to_upgrade loadsDemo "@@@").fst =
        Except.ok ⟨Jval.bool false, Jval.str msg⟩ ∧ msg ≠ "" :=
  is_safe_to_upgrade_fail_closed loadsDemo "@@@"
    (Or.inl ⟨"Expecting value: line 1 column 1 (char 0)", rfl⟩)

/-- C3.  With the credential variable absent or empty, get_api_key raises
ValueError before check_upgradable_packages or any search_for_bugs call runs
(src/main.py lines 103-104), the top-level except prints the single error
JSON object, no subprocess or network event occurs, nothing reaches standard
error, and standard output is exactly the one rendered error object. -/
theorem main_no_credential (o : Oracles)
    (h : o.envKey = none ∨ o.envKey = some "") :
    main o = ⟨Output.fatalError apiKeyErrorMsg, [], []⟩ ∧
      stdoutLines (main o) = [renderOutput (Output.fatalError apiKeyErrorMsg)] ∧
      stderrLines (main o) = [] ∧
      renderOutput (Output.fatalError apiKeyErrorMsg) =
        "\x7b\n    \"error\": \"No GOOGLE_API_KEY environment variable found. Please set it in your .env file.\"\n\x7d" := by
  have hm : main o = ⟨Output.fatalError apiKeyErrorMsg, [], []⟩ := by
    rcases h with h | h <;> simp [main, get_api_key, h]
  exact ⟨hm, by rw [hm]; rfl, by rw [hm]; rfl, rfl⟩

/-- Run with the credential variable absent. -/
def oracleNoKey : Oracles :=
  ⟨none, SubprocessOutcome.ok "", fun _ => Except.error "e",
    fun _ => Except.error "e"⟩

/-- C3, witness: the credential-absent run at a concrete environment. -/
theorem main_no_credential_witness :
    main oracleNoKey = ⟨Output.fatalError apiKeyErrorMsg, [], []⟩ ∧
      stdoutLines (main oracleNoKey) =
        [renderOutput (Output.fatalError apiKeyErrorMsg)] ∧
      stderrLines (main oracleNoKey) = [] ∧
      renderOutput (Output.fatalError apiKeyErrorMsg) =
        "\x7b\n    \"error\": \"No GOOGLE_API_KEY environment variable found. Please set it in your .env file.\"\n\x7d" :=
  main_no_credential oracleNoKey (Or.inl rfl)

/-- Provenance of the "safe" field of a report record: it is the fail-closed
Boolean false, or it is exactly the value the parsed Assessor response for
that package carried under its "safe" key (of whatever JSON type). -/
def safeFieldOk (apiKey : String) (service : String → Except String String)
    (loads : LoadsOracle) : ReportRecord → Prop
  | ReportRecord.message _ => True
  | ReportRecord.pkg p s _ =>
      s = Jval.bool false ∨
        ∃ fields, loads (search_for_bugs p apiKey (service p)) =
          Except.ok (Jval.obj fields) ∧ jlookup fields "safe" = some s

/-- When is_safe_to_upgrade returns normally, the "safe" value of its result
is the fail-closed false or the value under the "safe" key of the parsed
input. -/
theorem is_safe_to_upgrade_safe_src (loads : LoadsOracle) (s : String)
    (d : SafeDict) (h : (is_safe_to_upgrade loads s).fst = Except.ok d) :
    d.safe = Jval.bool false ∨
      ∃ fields, loads s = Except.ok (Jval.obj fields) ∧
        jlookup fields "safe" = some d.safe := by
  cases hl : loads s with
  | error m =>
      left
      rw [is_safe_to_upgrade, hl] at h
      simp only [Except.ok.injEq] at h
      rw [← h]
  | ok data =>
      cases data with
      | obj fields =>
          cases hfind : fields.find? (fun q => q.fst == "safe") with
          | none =>
              left
              rw [is_safe_to_upgrade, hl] at h
              simp only [pySubscript, hfind, Except.ok.injEq] at h
              rw [← h]
          | some q =>
              cases hfind2 : fields.find? (fun q => q.fst == "reason") with
              | none =>
                  left
                  rw [is_safe_to_upgrade, hl] at h
                  simp only [pySubscript, hfind, hfind2, Except.ok.injEq] at h
                  rw [← h]
              | some q2 =>
                  right
                  rw [is_safe_to_upgrade, hl] at h
                  simp only [pySubscript, hfind, hfind2, Except.ok.injEq] at h
                  refine ⟨fields, rfl, ?_⟩
                  rw [jlookup, hfind, ← h]
                  rfl
      | null =>
          rw [is_safe_to_upgrade, hl] at h
          simp only [pySubscript] at h
          exact absurd h (by simp)
      | bool b =>
          rw [is_safe_to_upgrade, hl] at h
          simp only [pySubscript] at h
          exact absurd h (by simp)
      | num n =>
          rw [is_safe_to_upgrade, hl] at h
          simp only [pySubscript] at h
          exact absurd h (by simp)
      | str t =>
          rw [is_safe_to_upgrade, hl] at h
          simp only [pySubscript] at h
          exact absurd h (by simp)
      | arr xs =>
          rw [is_safe_to_upgrade, hl] at h
          simp only [pySubscript] at h
          exact absurd h (by simp)

/-- Every record the per-package loop produces satisfies the safe-field
provenance predicate. -/
theorem processPackages_safe (apiKey : String)
    (service : String → Except String String) (loads : LoadsOracle) :
    ∀ (pkgs : List String) (recs : List ReportRecord),
      (processPackages apiKey service loads pkgs).result = Except.ok recs →
      ∀ rec ∈ recs, safeFieldOk apiKey service loads rec := by
  intro pkgs
  induction pkgs with
  | nil =>
      intro recs h rec hrec
      rw [processPackages] at h
      simp only [Except.ok.injEq] at h
      rw [← h] at hrec
      exact absurd hrec (List.not_mem_nil rec)
  | cons p rest ih =>
      intro recs h rec hrec
      rw [processPackages] at h
      cases hp : (is_safe_to_upgrade loads
          (search_for_bugs p apiKey (service p))).fst with
      | error m => rw [hp] at h; exact Except.noConfusion h
      | ok sd =>
          rw [hp] at h
          cases hr : (processPackages apiKey service loads rest).result with
          | error m => simp only [hr] at h; exact Except.noConfusion h
          | ok recs1 =>
              simp only [hr, Except.ok.injEq] at h
              rw [← h] at hrec
              rcases List.mem_cons.mp hrec with hhead | htail
              · rw [hhead]
                rcases is_safe_to_upgrade_safe_src loads _ sd hp with h1 | h2
                · exact Or.inl h1
                · exact Or.inr h2
              · exact ih recs1 hr rec htail

/-- C4, amended.  Every record of a produced report has its "safe" field
present, but the field is Boolean only on the fail-closed paths: it is
Boolean false whenever the Assessor response could not be parsed into the
expected keys, and otherwise it is exactly the value the response carried
under its "safe" key, which src/main.py line 92 copies through without
validating its type.  The run is quantified over the oracle fields, which by
structure eta covers every run that produces a report (a credential-less run
produces none). -/
theorem main_report_safe_fields (k : String) (sc : SubprocessOutcome)
    (sv : String → Except String String) (ld : LoadsOracle)
    (recs : List ReportRecord)
    (hout : (main ⟨some k, sc, sv, ld⟩).output = Output.report recs) :
    ∀ rec ∈ recs, safeFieldOk k sv ld rec := by
  intro rec hrec
  by_cases hk0 : k = ""
  · subst hk0
    simp [main, get_api_key] at hout
  · simp only [main, get_api_key, if_neg hk0] at hout
    cases hscan : (check_upgradable_packages sc).fst with
    | error m =>
        rw [hscan] at hout
        exact absurd hout (by simp)
    | ok pkgs =>
        rw [hscan] at hout
        dsimp only at hout
        by_cases hemp : pkgs.isEmpty = true
        · rw [if_pos hemp] at hout
          dsimp only at hout
          simp only [Output.report.injEq] at hout
          rw [← hout] at hrec
          rcases List.mem_cons.mp hrec with hhead | htail
          · rw [hhead]; trivial
          · exact absurd htail (List.not_mem_nil rec)
        · rw [if_neg hemp] at hout
          cases hstep : (processPackages k sv ld pkgs).result with
          | error m =>
              rw [hstep] at hout
              exact absurd hout (by simp)
          | ok recs1 =>
              rw [hstep] at hout
              dsimp only at hout
              simp only [Output.report.injEq] at hout
              rw [← hout] at hrec
              exact processPackages_safe k sv ld pkgs recs1 hstep rec hrec

/-- Service behaviour answering every package with the response text
"RESP". -/
def serviceResp : String → Except String String := fun _ => Except.ok "RESP"

/-- json.loads behaviour parsing "RESP" to an object whose "safe" value is
the Boolean true. -/
def loadsSafeTrue : LoadsOracle := fun s =>
  if s = "RESP" then
    Except.ok (Jval.obj [("safe", Jval.bool true), ("reason", Jval.str "fine")])
  else Except.error "Expecting value: line 1 column 1 (char 0)"

/-- C4, witness: a concrete run producing a report whose record satisfies
the provenance predicate. -/
theorem main_report_safe_fields_witness :
    safeFieldOk "k" serviceResp loadsSafeTrue
      (ReportRecord.pkg "vim" (Jval.bool true) (Jval.str "fine")) :=
  main_report_safe_fields "k" (SubprocessOutcome.ok "vim") serviceResp
    loadsSafeTrue [ReportRecord.pkg "vim" (Jval.bool true) (Jval.str "fine")]
    rfl (ReportRecord.pkg "vim" (Jval.bool true) (Jval.str "fine")) (by simp)

/-- Run whose Assessor response parses to an object whose "safe" value is
the number 1. -/
def oracleSafeNum : Oracles :=
  ⟨some "k", SubprocessOutcome.ok "vim", fun _ => Except.ok "RESP",
    fun s =>
      if s = "RESP" then
        Except.ok (Jval.obj [("safe", Jval.num 1), ("reason", Jval.str "r")])
      else Except.error "Expecting value: line 1 column 1 (char 0)"⟩

/-- C4, counterexample.  When the Assessor response carries the number 1
under its "safe" key, the produced record's "safe" field is that number, not
a Boolean: the claim that every record's "safe" field is of boolean type
regardless of the response value is false. -/
theorem main_report_safe_not_boolean :
    (main oracleSafeNum).output =
        Output.report [ReportRecord.pkg "vim" (Jval.num 1) (Jval.str "r")] ∧
      ∀ b : Bool, Jval.num 1 ≠ Jval.bool b :=
  ⟨rfl, fun _ h => Jval.noConfusion h⟩

/-- Package name of a report record, when it is a per-package record. -/
def recName : ReportRecord → Option String
  | ReportRecord.pkg p _ _ => some p
  | ReportRecord.message _ => none

/-- The per-package loop yields exactly one per-package record per input
package, in input order. -/
theorem processPackages_names (apiKey : String)
    (service : String → Except String String) (loads : LoadsOracle) :
    ∀ (pkgs : List String) (recs : List ReportRecord),
      (processPackages apiKey service loads pkgs).result = Except.ok recs →
      recs.map recName = pkgs.map some := by
  intro pkgs
  induction pkgs with
  | nil =>
      intro recs h
      rw [processPackages] at h
      simp only [Except.ok.injEq] at h
      rw [← h]
      rfl
  | cons p rest ih =>
      intro recs h
      rw [processPackages] at h
      cases hp : (is_safe_to_upgrade loads
          (search_for_bugs p apiKey (service p))).fst with
      | error m => rw [hp] at h; exact Except.noConfusion h
      | ok sd =>
          rw [hp] at h
          cases hr : (processPackages apiKey service loads rest).result with
          | error m => simp only [hr] at h; exact Except.noConfusion h
          | ok recs1 =>
              simp only [hr, Except.ok.injEq] at h
              rw [← h]
              simp only [List.map_cons]
              rw [ih recs1 hr]
              rfl

/-- C5.  For every run whose scanner invocation succeeds with a non-empty
package list and which produces a report, the report has exactly one
per-package record per scanned package, in scanner-output order; in
particular the record count equals the package count. -/
theorem main_report_one_record_per_package (k out : String)
    (sv : String → Except String String) (ld : LoadsOracle)
    (recs : List ReportRecord) (hk0 : k ≠ "")
    (hne : py_splitlines out ≠ [])
    (hout : (main ⟨some k, SubprocessOutcome.ok out, sv, ld⟩).output =
      Output.report recs) :
    recs.map recName = (py_splitlines out).map some ∧
      recs.length = (py_splitlines out).length := by
  have hmap : recs.map recName = (py_splitlines out).map some := by
    simp only [main, get_api_key, if_neg hk0, check_upgradable_packages] at hout
    have hemp : (py_splitlines out).isEmpty = false := by
      cases hpp : py_splitlines out with
      | nil => exact absurd hpp hne
      | cons a l => rfl
    rw [if_neg (by rw [hemp]; exact Bool.false_ne_true)] at hout
    cases hstep : (processPackages k sv ld (py_splitlines out)).result with
    | error m =>
        rw [hstep] at hout
        exact absurd hout (by simp)
    | ok recs1 =>
        rw [hstep] at hout
        dsimp only at hout
        simp only [Output.report.injEq] at hout
        rw [← hout]
        exact processPackages_names k sv ld (py_splitlines out) recs1 hstep
  refine ⟨hmap, ?_⟩
  have := congrArg List.length hmap
  simpa using this

/-- Service behaviour failing every call with the message "boom". -/
def serviceBoom : String → Except String String := fun _ => Except.error "boom"

/-- json.loads behaviour failing on every string. -/
def loadsReject : LoadsOracle := fun _ =>
  Except.error "Expecting value: line 1 column 1 (char 0)"

/-- C5, witness: a concrete two-package run whose report lines up with the
scanner output. -/
theorem main_report_one_record_per_package_witness :
    ([ReportRecord.pkg "vim" (Jval.bool false)
        (Jval.str "Error parsing JSON: Expecting value: line 1 column 1 (char 0)"),
      ReportRecord.pkg "gcc" (Jval.bool false)
        (Jval.str "Error parsing JSON: Expecting value: line 1 column 1 (char 0)")].map
          recName = (py_splitlines "vim\ngcc").map some) ∧
      ([ReportRecord.pkg "vim" (Jval.bool false)
          (Jval.str "Error parsing JSON: Expecting value: line 1 column 1 (char 0)"),
        ReportRecord.pkg "gcc" (Jval.bool false)
          (Jval.str "Error parsing JSON: Expecting value: line 1 column 1 (char 0)")].length =
        (py_splitlines "vim\ngcc").length) :=
  main_report_one_record_per_package "k" "vim\ngcc" serviceBoom loadsReject _
    (by decide) (by decide) rfl

/-- Run whose checkupdates invocation exits with status 1. -/
def oracleScanFail : Oracles :=
  ⟨some "k", SubprocessOutcome.nonzeroExit 1, serviceBoom, loadsReject⟩

/-- Service behaviour answering every package with the unparsable response
text "@@@". -/
def serviceRaw : String → Except String String := fun _ => Except.ok "@@@"

/-- Run whose Assessor response cannot be parsed, triggering the parser
diagnostic. -/
def oracleParseFail : Oracles :=
  ⟨some "k", SubprocessOutcome.ok "vim", serviceRaw, loadsReject⟩

/-- C6, evaluation at the failing inputs.  The diagnostic print calls of
check_upgradable_packages (src/main.py line 44) and is_safe_to_upgrade
(line 94) pass no file argument, so both diagnostics are written to standard
output — in the scanner-failure run the diagnostic line precedes the JSON
payload on standard output and standard error receives nothing, contradicting
the claim that diagnostics go to the standard error stream. -/
theorem diagnostics_go_to_stdout :
    (main oracleScanFail).prints =
        [(OutStream.stdout,
          "Error checking for updates: " ++ calledProcessErrorMsg 1)] ∧
      stderrLines (main oracleScanFail) = [] ∧
      stdoutLines (main oracleScanFail) =
        ["Error checking for updates: " ++ calledProcessErrorMsg 1,
          renderOutput
            (Output.report [ReportRecord.message "No upgradable packages found."])] ∧
      (main oracleParseFail).prints =
        [(OutStream.stdout,
          "Error parsing JSON: Expecting value: line 1 column 1 (char 0)")] ∧
      stderrLines (main oracleParseFail) = [] :=
  ⟨rfl, rfl, rfl, rfl, rfl⟩

/-- C7.  When the external update-check command exits non-zero,
check_upgradable_packages catches the CalledProcessError and returns the
empty list — the same value it returns for a successful run with empty
output, so the failure is indistinguishable downstream — and the run
completes with the normal no-packages report rather than a fatal error. -/
theorem scan_failure_degrades_to_empty (k : String) (c : Nat)
    (sv : String → Except String String) (ld : LoadsOracle)
    (hk0 : k ≠ "") (hc : c ≠ 0) :
    (check_upgradable_packages (SubprocessOutcome.nonzeroExit c)).fst =
        Except.ok [] ∧
      (check_upgradable_packages (SubprocessOutcome.ok "")).fst =
        Except.ok [] ∧
      (main ⟨some k, SubprocessOutcome.nonzeroExit c, sv, ld⟩).output =
        Output.report [ReportRecord.message "No upgradable packages found."] := by
  refine ⟨rfl, rfl, ?_⟩
  simp only [main, get_api_key, if_neg hk0, check_upgradable_packages]
  rfl

/-- C7, witness: a concrete failing scan at exit status 2. -/
theorem scan_failure_degrades_to_empty_witness :
    (check_upgradable_packages (SubprocessOutcome.nonzeroExit 2)).fst =
        Except.ok [] ∧
      (check_upgradable_packages (SubprocessOutcome.ok "")).fst =
        Except.ok [] ∧
      (main ⟨some "k", SubprocessOutcome.nonzeroExit 2, serviceBoom,
          loadsReject⟩).output =
        Output.report [ReportRecord.message "No upgradable packages found."] :=
  scan_failure_degrades_to_empty "k" 2 serviceBoom loadsReject (by decide)
    (by decide)

/-- Bytes json.dumps(..., indent=4) produces for the no-packages report. -/
def emptyReportJson : String :=
  "[\n    \x7b\n        \"message\": \"No upgradable packages found.\"\n    \x7d\n]"

/-- Run whose checkupdates invocation succeeds with empty output. -/
def oracleEmptyScan : Oracles :=
  ⟨some "k", SubprocessOutcome.ok "", serviceBoom, loadsReject⟩

/-- Run whose checkupdates invocation exits with status 2, which also yields
an empty package list. -/
def oracleScanFailTwo : Oracles :=
  ⟨some "k", SubprocessOutcome.nonzeroExit 2, serviceBoom, loadsReject⟩

/-- C8, evaluation.  When the scanner command succeeds with empty output,
standard output is exactly the one-element JSON array; but when the scanner
returns an empty package list because the command exited non-zero, the
misdirected diagnostic print (src/main.py line 44, no file argument)
precedes the array on standard output, so standard output is not exactly the
array for every run in which the Scanner returns an empty list. -/
theorem empty_report_exact_output :
    stdoutLines (main oracleEmptyScan) = [emptyReportJson] ∧
      stdoutLines (main oracleScanFailTwo) =
        ["Error checking for updates: " ++ calledProcessErrorMsg 2,
          emptyReportJson] ∧
      stdoutLines (main oracleScanFailTwo) ≠ [emptyReportJson] := by
  refine ⟨rfl, rfl, ?_⟩
  intro h
  exact absurd (congrArg List.length h) (by decide)

/-- C9.  The run is a pure function of its four external inputs: two runs
with the same environment, the same scanner outcome, the same per-package
service responses and the same parse behaviour produce the same result,
hence byte-identical standard output. -/
theorem pipeline_deterministic (o₁ o₂ : Oracles)
    (h1 : o₁.envKey = o₂.envKey) (h2 : o₁.scanner = o₂.scanner)
    (h3 : o₁.service = o₂.service) (h4 : o₁.loads = o₂.loads) :
    main o₁ = main o₂ ∧
      stdoutLines (main o₁) = stdoutLines (main o₂) ∧
      stderrLines (main o₁) = stderrLines (main o₂) := by
  obtain ⟨a1, b1, c1, d1⟩ := o₁
  obtain ⟨a2, b2, c2, d2⟩ := o₂
  dsimp only at h1 h2 h3 h4
  subst h1
  subst h2
  subst h3
  subst h4
  exact ⟨rfl, rfl, rfl⟩

/-- Run used to witness determinism. -/
def oracleDet : Oracles :=
  ⟨some "k", SubprocessOutcome.ok "vim", serviceResp, loadsSafeTrue⟩

/-- Second run with the same external inputs as oracleDet. -/
def oracleDetCopy : Oracles :=
  ⟨some "k", SubprocessOutcome.ok "vim", serviceResp, loadsSafeTrue⟩

/-- C9, witness: two concrete runs over identical inputs agree. -/
theorem pipeline_deterministic_witness :
    main oracleDet = main oracleDetCopy ∧
      stdoutLines (main oracleDet) = stdoutLines (main oracleDetCopy) ∧
      stderrLines (main oracleDet) = stderrLines (main oracleDetCopy) :=
  pipeline_deterministic oracleDet oracleDetCopy rfl rfl rfl rfl

/-- C10.  When invoking checkupdates fails other than by a non-zero exit
(for example the command is absent), the exception is not a
CalledProcessError, so check_upgradable_packages does not absorb it into an
empty list: it propagates to the top-level boundary, and the run's standard
output is the single rendered error object instead of a report, with no
diagnostic line and one subprocess event. -/
theorem scanner_oserror_fatal (k m : String)
    (sv : String → Except String String) (ld : LoadsOracle) (hk0 : k ≠ "") :
    (check_upgradable_packages (SubprocessOutcome.oserror m)).fst =
        Except.error m ∧
      main ⟨some k, SubprocessOutcome.oserror m, sv, ld⟩ =
        ⟨Output.fatalError m, [], [Event.subprocessCall]⟩ ∧
      stdoutLines (main ⟨some k, SubprocessOutcome.oserror m, sv, ld⟩) =
        [renderOutput (Output.fatalError m)] := by
  have hm : main ⟨some k, SubprocessOutcome.oserror m, sv, ld⟩ =
      ⟨Output.fatalError m, [], [Event.subprocessCall]⟩ := by
    simp only [main, get_api_key, if_neg hk0, check_upgradable_packages]
  exact ⟨rfl, hm, by rw [hm]; rfl⟩

/-- C10, witness: the concrete FileNotFoundError message for a missing
checkupdates command. -/
theorem scanner_oserror_fatal_witness :
    (check_upgradable_packages (SubprocessOutcome.oserror
        "[Errno 2] No such file or directory: \x27checkupdates\x27")).fst =
        Except.error "[Errno 2] No such file or directory: \x27checkupdates\x27" ∧
      main ⟨some "k", SubprocessOutcome.oserror
          "[Errno 2] No such file or directory: \x27checkupdates\x27",
          serviceBoom, loadsReject⟩ =
        ⟨Output.fatalError "[Errno 2] No such file or directory: \x27checkupdates\x27",
          [], [Event.subprocessCall]⟩ ∧
      stdoutLines (main ⟨some "k", SubprocessOutcome.oserror
          "[Errno 2] No such file or directory: \x27checkupdates\x27",
          serviceBoom, loadsReject⟩) =
        [renderOutput (Output.fatalError
          "[Errno 2] No such file or directory: \x27checkupdates\x27")] :=
  scanner_oserror_fatal "k" "[Errno 2] No such file or directory: \x27checkupdates\x27"
    serviceBoom loadsReject (by decide)

end Iaawb
